import Mathlib

/-!
Shallow embedding of the processor core in `src/riscv/processor.cc`
(instruction dispatch, status-register writes, trap delivery, the batch
step loop with its timer-interrupt logic, and vector-length
configuration), together with theorems settling the specification
claims about it.

Machine integers are modelled as `Nat` with explicit 32- and 64-bit masking
where the C++ types wrap; the signed quantities `vl`, `vlmax`, `utidx`
are modelled as `Int`.
-/

namespace Spike

/-- Modelled from the spec: the status-register bit layout (trap enable,
feature enables, privilege shadow, privilege, width bits, interrupt
mask, virtual memory) lives in `processor.h`, which is not part of the
excerpted source; the spec leaves the exact positions open, so we fix
one assignment of distinct bits. -/
def SR_ET : Nat := 0x00000001

/-- Modelled from the spec: floating-point enable bit. -/
def SR_EF : Nat := 0x00000002

/-- Modelled from the spec: vector-unit enable bit. -/
def SR_EV : Nat := 0x00000004

/-- Modelled from the spec: compressed-instructions enable bit. -/
def SR_EC : Nat := 0x00000008

/-- Modelled from the spec: previous-privilege shadow bit. -/
def SR_PS : Nat := 0x00000010

/-- Modelled from the spec: supervisor (privilege) bit. -/
def SR_S : Nat := 0x00000020

/-- Modelled from the spec: user 64-bit width bit. -/
def SR_UX : Nat := 0x00000040

/-- Modelled from the spec: supervisor 64-bit width bit. -/
def SR_SX : Nat := 0x00000080

/-- Modelled from the spec: interrupt-mask field. -/
def SR_IM : Nat := 0x0000FF00

/-- Modelled from the spec: interrupt-mask shift. -/
def SR_IM_SHIFT : Nat := 8

/-- Modelled from the spec: virtual-memory enable bit. -/
def SR_VM : Nat := 0x00010000

/-- Modelled from the spec: the reserved bits of the status register are
all the bits not assigned to a defined field. -/
def SR_ZERO : Nat := 0xFFFE0000

/-- Modelled from the spec: reserved bits of the fp status register. -/
def FSR_ZERO : Nat := 0xFFFFFF00

/-- Modelled from the spec: exception-code field of the cause register. -/
def CAUSE_EXCCODE : Nat := 0x000000FF

/-- Modelled from the spec: exception-code shift. -/
def CAUSE_EXCCODE_SHIFT : Nat := 0

/-- Modelled from the spec: pending-interrupt field of the cause register. -/
def CAUSE_IP : Nat := 0x00FF0000

/-- Modelled from the spec: pending-interrupt shift. -/
def CAUSE_IP_SHIFT : Nat := 16

/-- Modelled from the spec: the timer interrupt number. -/
def TIMER_IRQ : Nat := 7

/-- Modelled from the spec: the inter-processor interrupt number. -/
def IPI_IRQ : Nat := 5

/-- Modelled from the spec: the number of defined trap codes; trap codes
are valid exactly when below this bound. -/
def NUM_TRAPS : Nat := 16

/-- Modelled from the spec: the illegal-instruction trap code. -/
def trap_illegal_instruction : Nat := 2

/-- Modelled from the spec: the interrupt trap code raised by
`take_interrupt`. -/
def trap_interrupt : Nat := 6

/-- Modelled from the spec: the lane-array capacity `MAX_UTS`. -/
def MAX_UTS : Int := 2048

/-- Modelled from the spec: the dispatch-table size, a power of two. -/
def DISPATCH_TABLE_SIZE : Nat := 1024

/-- The 32-bit one's complement, the meaning of C `~m` on a `uint32_t`. -/
def compl32 (m : Nat) : Nat := 0xFFFFFFFF ^^^ m

/-- The modulus of the 64-bit counters `count`, `compare`, `cycle`. -/
def W64 : Nat := 0x10000000000000000

/-- The build-time capability configuration: the four `RISCV_ENABLE_*`
preprocessor flags tested in `set_sr`. -/
structure BuildConfig where
  enable64 : Bool
  enableFPU : Bool
  enableRVC : Bool
  enableVec : Bool
deriving DecidableEq

/-- The architected per-core state of `processor_t` (the fields the
excerpted core reads or writes).  `load` models `mmu.load_insn`
(instruction word at a pc, given the compressed-encoding enable), and
`mmu_badvaddr` models `mmu.get_badvaddr()`; `mmu_vm_enabled`,
`mmu_supervisor` record the notifications `set_sr` pushes into the mmu. -/
structure State where
  id : Nat
  run : Bool
  XPR : Nat → Nat
  FPR : Nat → Nat
  pc : Nat
  evec : Nat
  epc : Nat
  badvaddr : Nat
  cause : Nat
  pcr_k0 : Nat
  pcr_k1 : Nat
  tohost : Nat
  fromhost : Nat
  count : Nat
  compare : Nat
  cycle : Nat
  sr : Nat
  fsr : Nat
  xprlen : Nat
  vecbanks : Nat
  vecbanks_count : Nat
  utidx : Int
  vlmax : Int
  vl : Int
  nxfpr_bank : Nat
  nxpr_use : Nat
  nfpr_use : Nat
  uts : Nat → Option Unit
  load : Nat → Bool → Nat
  mmu_badvaddr : Nat
  mmu_vm_enabled : Bool
  mmu_supervisor : Bool

/-- Embedding of `processor_t::set_sr`: mask reserved bits, then force off each
feature bit whose capability is disabled at build time, notify the mmu,
and recompute the native register width. -/
def set_sr (cfg : BuildConfig) (p : State) (val : Nat) : State :=
  let sr0 := val &&& compl32 SR_ZERO
  let sr1 := if cfg.enable64 then sr0 else sr0 &&& compl32 (SR_SX ||| SR_UX)
  let sr2 := if cfg.enableFPU then sr1 else sr1 &&& compl32 SR_EF
  let sr3 := if cfg.enableRVC then sr2 else sr2 &&& compl32 SR_EC
  let sr4 := if cfg.enableVec then sr3 else sr3 &&& compl32 SR_EV
  { p with
    sr := sr4
    mmu_vm_enabled := sr4 &&& SR_VM ≠ 0
    mmu_supervisor := sr4 &&& SR_S ≠ 0
    xprlen :=
      if (if sr4 &&& SR_S ≠ 0 then sr4 &&& SR_SX else sr4 &&& SR_UX) ≠ 0
      then 64 else 32 }

/-- Embedding of `processor_t::set_fsr`. -/
def set_fsr (p : State) (val : Nat) : State :=
  { p with fsr := val &&& compl32 FSR_ZERO }

/-- Embedding of `processor_t::reset`. -/
def reset (cfg : BuildConfig) (p : State) : State :=
  let p := { p with
    run := false
    XPR := fun _ => 0
    FPR := fun _ => 0
    pc := 0
    evec := 0
    epc := 0
    badvaddr := 0
    cause := 0
    pcr_k0 := 0
    pcr_k1 := 0
    tohost := 0
    fromhost := 0
    count := 0
    compare := 0
    cycle := 0 }
  let p := set_sr cfg p (SR_S ||| SR_SX)
  let p := set_fsr p 0
  { p with
    vecbanks := 0xff
    vecbanks_count := 8
    utidx := -1
    vlmax := 32
    vl := 0
    nxfpr_bank := 256
    nxpr_use := 32
    nfpr_use := 32
    uts := fun _ => none }

/-- Embedding of `processor_t::vcfg`. -/
def vcfg (p : State) : State :=
  let v : Int :=
    if p.nxpr_use + p.nfpr_use < 2
    then ((p.nxfpr_bank * p.vecbanks_count : Nat) : Int)
    else (((p.nxfpr_bank / (p.nxpr_use + p.nfpr_use - 1)) *
            p.vecbanks_count : Nat) : Int)
  { p with vlmax := min v MAX_UTS }

/-- Embedding of `processor_t::setvl`. -/
def setvl (p : State) (vlapp : Int) : State :=
  { p with vl := min p.vlmax vlapp }

/-- One opcode-table row (`DECLARE_INSN(name, opcode, mask)` together
with the handler it names); `α` is the handler payload — an abstract
handler identifier for the dispatch-equivalence development, an
executable handler function for the step loop. -/
structure Entry (α : Type) where
  func : α
  opcode : Nat
  mask : Nat
deriving DecidableEq

/-- The slot-candidate test of `initialize_dispatch_table`: entry `e` is
pushed onto `dispatch_chain[i]` when
`(i & mask) == (opcode & mask & (DISPATCH_TABLE_SIZE-1))`. -/
def chainPred (S i : Nat) {α : Type} (e : Entry α) : Bool :=
  i &&& e.mask == e.opcode &&& e.mask &&& (S - 1)

/-- Embedding of `dispatch_chain[i]`: the opcode-table entries whose low-bit pattern
is consistent with slot `i`, in opcode-table order. -/
def buildChain (tbl : List (Entry α)) (S i : Nat) : List (Entry α) :=
  tbl.filter (chainPred S i)

/-- First-match scan of an entry list: the loop body of
`processor_t::dispatch`, and also the reference linear scan of the whole
opcode table (`none` = illegal-instruction fault). -/
def scan (w : Nat) : List (Entry α) → Option α
  | [] => none
  | e :: rest => if w &&& e.mask == e.opcode then some e.func else scan w rest

/-- Resolution through the built two-level table: slot
`w % DISPATCH_TABLE_SIZE` is bound directly to its candidate's handler
when it has exactly one candidate (`dispatch_chain[i].size() == 1`), and
otherwise to `processor_t::dispatch`, which scans the slot's chain
(`none` = illegal-instruction fault). -/
def dispatchResolve (tbl : List (Entry α)) (S w : Nat) : Option α :=
  match buildChain tbl S (w % S) with
  | [e] => some e.func
  | chain => scan w chain

/-- Reference semantics stated by the spec: a direct first-match linear
scan of the opcode table in its listed order. -/
def linearScan (tbl : List (Entry α)) (w : Nat) : Option α :=
  scan w tbl

/-- An opcode table is well formed when each entry's opcode bits lie
within its mask, so the entry is matchable at all. -/
def wellFormed (tbl : List (Entry α)) : Prop :=
  ∀ e ∈ tbl, e.opcode &&& e.mask = e.opcode

/-- The non-local control transfers thrown during instruction execution
(`trap_t`, `vt_command_t`, `halt_t`). -/
inductive Signal where
  | trap (t : Nat)
  | vt_stop
  | vt_other
  | halt
deriving DecidableEq

/-- Modelled from the spec: `demand` (from the `common.h` header, absent
from the excerpt) aborts the whole process with a diagnostic when its
condition fails.  The two diagnostics carry exactly the data the two
`demand` calls in `take_trap` format: the bad trap number, respectively
the core id, trap code and pc of a trap raised in error mode. -/
inductive Fatal where
  | badTrapNumber (t : Nat)
  | errorMode (id : Nat) (t : Nat) (pc : Nat)
deriving DecidableEq

/-- Whether a fatal diagnostic identifies the violating core. -/
def diagIdentifiesCore : Fatal → Bool
  | .badTrapNumber _ => false
  | .errorMode _ _ _ => true

/-- An executable handler: it receives the processor state, the
instruction word and the pc, and either returns the mutated state with
the next pc or throws a signal. -/
def Func : Type :=
  State → Nat → Nat → Except Signal (State × Nat)

/-- Embedding of `processor_t::take_trap`: validate the trap code and that traps are
enabled (fatal aborts otherwise), then save privilege into the shadow
bit, enter supervisor mode with traps disabled, record the cause code,
save the pc into epc, redirect to the trap vector and capture the mmu's
fault address.  `trap_sr_val` is the status value `take_trap` writes:
`(((sr & ~SR_ET) | SR_S) & ~SR_PS) | ((sr & SR_S) ? SR_PS : 0)`. -/
def trap_sr_val (sr : Nat) : Nat :=
  (((sr &&& compl32 SR_ET) ||| SR_S) &&& compl32 SR_PS) |||
    (if sr &&& SR_S ≠ 0 then SR_PS else 0)

def take_trap (cfg : BuildConfig) (p : State) (t : Nat) : Except Fatal State :=
  if NUM_TRAPS ≤ t then .error (.badTrapNumber t)
  else if p.sr &&& SR_ET = 0 then .error (.errorMode p.id t p.pc)
  else
    let p1 := set_sr cfg p (trap_sr_val p.sr)
    .ok { p1 with
      cause := (p1.cause &&& compl32 CAUSE_EXCCODE) |||
                (t <<< CAUSE_EXCCODE_SHIFT)
      epc := p1.pc
      pc := p1.evec
      badvaddr := p1.mmu_badvaddr }

/-- Embedding of `processor_t::take_interrupt`: the trap it throws, when the
unmasked pending interrupts are nonzero and traps are enabled. -/
def take_interrupt (p : State) : Option Nat :=
  let interrupts := ((p.cause &&& CAUSE_IP) >>> CAUSE_IP_SHIFT) &&&
                      ((p.sr &&& SR_IM) >>> SR_IM_SHIFT)
  if interrupts ≠ 0 ∧ p.sr &&& SR_ET ≠ 0 then some trap_interrupt else none

/-- The `execute_insn` macro body: fetch the word at the pc (honoring
the compressed-encoding enable), resolve it through the two-level
dispatch table, run the handler (an unresolved word throws the
illegal-instruction trap), store the returned next pc, and force
integer register 0 back to zero. -/
def execute_insn (tbl : List (Entry Func)) (p : State) :
    Except Signal State :=
  let insn := p.load p.pc (p.sr &&& SR_EC ≠ 0)
  match dispatchResolve tbl DISPATCH_TABLE_SIZE insn with
  | none => .error (.trap trap_illegal_instruction)
  | some f =>
    match f p insn p.pc with
    | .error s => .error s
    | .ok (p1, pc1) =>
      .ok { p1 with pc := pc1, XPR := Function.update p1.XPR 0 0 }

/-- The inner `for` loop of `step`: retire instructions one at a time
until `i` reaches `n` or one throws; returns the updated `i`, the state,
and the signal if one was thrown.  (The four-at-a-time unrolling in the
non-tracing path retires the same sequence and is semantically
invisible.) -/
def runFor (tbl : List (Entry Func)) (fuel : Nat) (n i : Nat) (p : State) :
    Nat × State × Option Signal :=
  match fuel with
  | 0 => (i, p, none)
  | fuel + 1 =>
    if i < n then
      match execute_insn tbl p with
      | .error s => (i, p, some s)
      | .ok p1 => runFor tbl fuel n (i + 1) p1
    else (i, p, none)

/-- How one `while(1) try { ... }` pass ends: the `break` out to the
timer bookkeeping, or the `return` inside `catch(halt_t)`. -/
inductive LoopExit where
  | normal (i : Nat) (p : State)
  | halted (p : State)

/-- The `while(1)`/`catch` structure of `step`: check interrupts, run
the inner loop, and on a thrown signal bump `i` and either deliver the
trap and go around again, stop, continue, or reset and return. -/
def stepLoop (cfg : BuildConfig) (tbl : List (Entry Func)) (n : Nat) :
    Nat → Nat → State → Except Fatal LoopExit
  | 0, i, p => .ok (.normal i p)
  | fuel + 1, i, p =>
    match take_interrupt p with
    | some t =>
      match take_trap cfg p t with
      | .error f => .error f
      | .ok p1 => stepLoop cfg tbl n fuel (i + 1) p1
    | none =>
      match runFor tbl n n i p with
      | (i1, p1, none) => .ok (.normal i1 p1)
      | (i1, p1, some (.trap t)) =>
        match take_trap cfg p1 t with
        | .error f => .error f
        | .ok p2 => stepLoop cfg tbl n fuel (i1 + 1) p2
      | (i1, p1, some .vt_stop) => .ok (.normal (i1 + 1) p1)
      | (i1, p1, some .vt_other) => stepLoop cfg tbl n fuel (i1 + 1) p1
      | (_, p1, some .halt) => .ok (.halted (reset cfg p1))

/-- The timer bookkeeping at the end of `step`: advance `cycle` and
`count` by the retired-instruction count `i` (64-bit wraparound), and
set the timer interrupt-pending bit when the old count was below
`compare` and the new count reached it or the addition wrapped. -/
def timer_update (p : State) (i : Nat) : State :=
  let old_count := p.count
  let max_count := W64 - 1
  let count1 := (p.count + i) % W64
  let p1 := { p with cycle := (p.cycle + i) % W64, count := count1 }
  if old_count < p.compare ∧
      (p.compare ≤ count1 ∨ max_count - i % W64 < old_count) then
    { p1 with cause := p.cause ||| (1 <<< (TIMER_IRQ + CAUSE_IP_SHIFT)) }
  else p1

/-- Embedding of `processor_t::step`: a no-op when not runnable; otherwise run the
batch loop and, unless it ended in a halt-reset, do the timer
bookkeeping on the number of instructions retired. -/
def step (cfg : BuildConfig) (tbl : List (Entry Func)) (n : Nat)
    (p : State) : Except Fatal State :=
  if !p.run then .ok p
  else
    match stepLoop cfg tbl n (n + 2) 0 p with
    | .error f => .error f
    | .ok (.halted p1) => .ok p1
    | .ok (.normal i p1) => .ok (timer_update p1 i)

/-- The union of the feature-enable bits whose capabilities are disabled
in a given build configuration (the bits `set_sr` must force off). -/
def disabledMask (cfg : BuildConfig) : Nat :=
  (if cfg.enable64 then 0 else SR_SX ||| SR_UX) |||
  (if cfg.enableFPU then 0 else SR_EF) |||
  (if cfg.enableRVC then 0 else SR_EC) |||
  (if cfg.enableVec then 0 else SR_EV)

lemma land_lor_eq_zero {x a b : Nat} (ha : x &&& a = 0) (hb : x &&& b = 0) :
    x &&& (a ||| b) = 0 := by
  apply Nat.zero_of_testBit_eq_false
  intro i
  have ha' := congrArg (fun z => z.testBit i) ha
  have hb' := congrArg (fun z => z.testBit i) hb
  simp only [Nat.testBit_and, Nat.testBit_or, Nat.zero_testBit] at ha' hb' ⊢
  rcases Bool.eq_false_or_eq_true (x.testBit i) with hx | hx <;>
    simp_all

lemma land_kill_here {a m : Nat} (h : a &&& m = 0) (x : Nat) :
    (x &&& a) &&& m = 0 := by
  rw [Nat.land_assoc, h, Nat.and_zero]

lemma land_kill_left {x m : Nat} (h : x &&& m = 0) (a : Nat) :
    (x &&& a) &&& m = 0 := by
  rw [Nat.land_assoc, Nat.land_comm a m, ← Nat.land_assoc, h, Nat.zero_and]

lemma land_pass {a m : Nat} (h : m &&& a = m) (x : Nat) :
    (x &&& a) &&& m = x &&& m := by
  apply Nat.eq_of_testBit_eq
  intro i
  have h' := congrArg (fun z => z.testBit i) h
  simp only [Nat.testBit_and] at h' ⊢
  rcases Bool.eq_false_or_eq_true (m.testBit i) with hm | hm <;>
    rcases Bool.eq_false_or_eq_true (a.testBit i) with ha | ha <;>
    simp_all

/-- C5: for every 32-bit value written to the status register via
`set_sr`, regardless of the bit pattern written, the reserved bits
(`SR_ZERO`) and every feature-enable bit whose capability is disabled at
build time (`SR_SX`/`SR_UX`, `SR_EF`, `SR_EC`, `SR_EV`) read back as
zero. -/
theorem set_sr_reserved_and_disabled_bits_zero
    (cfg : BuildConfig) (p : State) (val : Nat) :
    (set_sr cfg p val).sr &&& (SR_ZERO ||| disabledMask cfg) = 0 := by
  rcases cfg with ⟨e64, ef, ec, ev⟩
  cases e64 <;> cases ef <;> cases ec <;> cases ev <;>
    simp only [set_sr, disabledMask, Bool.false_eq_true, if_false, if_true,
      Nat.zero_or, Nat.or_zero] <;>
    repeat' (first
      | apply land_lor_eq_zero
      | exact land_kill_here (by decide) _
      | apply land_kill_left)

lemma lor_eq_zero_iff (a b : Nat) : a ||| b = 0 ↔ a = 0 ∧ b = 0 := by
  constructor
  · intro h
    constructor <;>
    · apply Nat.zero_of_testBit_eq_false
      intro i
      have hi := congrArg (fun z => z.testBit i) h
      simp only [Nat.testBit_or, Nat.zero_testBit, Bool.or_eq_false_iff] at hi
      simp [hi.1, hi.2]
  · rintro ⟨rfl, rfl⟩
    rfl

/-- Bits untouched by the reserved-bit mask and by every build-flag mask
pass through `set_sr` unchanged, whatever the build configuration. -/
lemma set_sr_and_pass (cfg : BuildConfig) (p : State) (val : Nat) {m : Nat}
    (h0 : m &&& compl32 SR_ZERO = m)
    (h1 : m &&& compl32 (SR_SX ||| SR_UX) = m)
    (h2 : m &&& compl32 SR_EF = m)
    (h3 : m &&& compl32 SR_EC = m)
    (h4 : m &&& compl32 SR_EV = m) :
    (set_sr cfg p val).sr &&& m = val &&& m := by
  rcases cfg with ⟨e64, ef, ec, ev⟩
  cases e64 <;> cases ef <;> cases ec <;> cases ev <;>
    simp only [set_sr, Bool.false_eq_true, if_false, if_true] <;>
    simp only [land_pass h4, land_pass h3, land_pass h2, land_pass h1,
      land_pass h0]

lemma trap_sr_val_ET (sr : Nat) : trap_sr_val sr &&& SR_ET = 0 := by
  by_cases hs : sr &&& SR_S = 0 <;>
    simp only [trap_sr_val, ne_eq, hs, not_true_eq_false, not_false_eq_true,
      if_true, if_false, ite_true, ite_false] <;>
    simp only [Nat.and_distrib_right,
      land_pass (show SR_ET &&& compl32 SR_PS = SR_ET by decide),
      land_kill_here (show compl32 SR_ET &&& SR_ET = 0 by decide),
      Nat.zero_or] <;>
    decide

lemma trap_sr_val_S (sr : Nat) : trap_sr_val sr &&& SR_S ≠ 0 := by
  by_cases hs : sr &&& SR_S = 0 <;>
    simp only [trap_sr_val, ne_eq, hs, not_true_eq_false, not_false_eq_true,
      if_true, if_false, ite_true, ite_false] <;>
    simp only [Nat.and_distrib_right,
      land_pass (show SR_S &&& compl32 SR_PS = SR_S by decide),
      Nat.and_self, lor_eq_zero_iff] <;>
    intro h <;>
    exact absurd h.1.2 (by decide)

lemma trap_sr_val_PS (sr : Nat) :
    (trap_sr_val sr &&& SR_PS ≠ 0) ↔ (sr &&& SR_S ≠ 0) := by
  by_cases hs : sr &&& SR_S = 0 <;>
    simp only [trap_sr_val, ne_eq, hs, not_true_eq_false, not_false_eq_true,
      if_true, if_false, ite_true, ite_false, iff_true, iff_false,
      not_not, not_false_iff] <;>
    simp only [Nat.and_distrib_right,
      land_kill_here (show compl32 SR_PS &&& SR_PS = 0 by decide),
      Nat.zero_or] <;>
    decide

lemma set_sr_sr_and_ET (cfg : BuildConfig) (p : State) (val : Nat) :
    (set_sr cfg p val).sr &&& SR_ET = val &&& SR_ET :=
  set_sr_and_pass cfg p val (by decide) (by decide) (by decide) (by decide)
    (by decide)

lemma set_sr_sr_and_S (cfg : BuildConfig) (p : State) (val : Nat) :
    (set_sr cfg p val).sr &&& SR_S = val &&& SR_S :=
  set_sr_and_pass cfg p val (by decide) (by decide) (by decide) (by decide)
    (by decide)

lemma set_sr_sr_and_PS (cfg : BuildConfig) (p : State) (val : Nat) :
    (set_sr cfg p val).sr &&& SR_PS = val &&& SR_PS :=
  set_sr_and_pass cfg p val (by decide) (by decide) (by decide) (by decide)
    (by decide)

/-- C2: delivering an in-range trap while traps are enabled saves the
old supervisor bit into the shadow bit, enters supervisor mode with
traps disabled, records the trap code in the cause register's
exception-code field, saves the faulting pc into epc and redirects the
pc to the trap vector. -/
theorem take_trap_delivery (cfg : BuildConfig) (p : State) (t : Nat)
    (ht : t < NUM_TRAPS) (he : p.sr &&& SR_ET ≠ 0) :
    ∃ q, take_trap cfg p t = Except.ok q ∧
      ((q.sr &&& SR_PS ≠ 0) ↔ (p.sr &&& SR_S ≠ 0)) ∧
      q.sr &&& SR_S ≠ 0 ∧
      q.sr &&& SR_ET = 0 ∧
      q.epc = p.pc ∧
      (q.cause &&& CAUSE_EXCCODE) >>> CAUSE_EXCCODE_SHIFT = t ∧
      q.pc = p.evec := by
  have h1 : ¬ NUM_TRAPS ≤ t := not_le.mpr ht
  simp only [take_trap, if_neg h1, if_neg he]
  refine ⟨_, rfl, ?_, ?_, ?_, ?_, ?_, ?_⟩
  · show (set_sr cfg p (trap_sr_val p.sr)).sr &&& SR_PS ≠ 0 ↔
      p.sr &&& SR_S ≠ 0
    rw [set_sr_sr_and_PS, trap_sr_val_PS]
  · show (set_sr cfg p (trap_sr_val p.sr)).sr &&& SR_S ≠ 0
    rw [set_sr_sr_and_S]
    exact trap_sr_val_S p.sr
  · show (set_sr cfg p (trap_sr_val p.sr)).sr &&& SR_ET = 0
    rw [set_sr_sr_and_ET]
    exact trap_sr_val_ET p.sr
  · show (set_sr cfg p (trap_sr_val p.sr)).pc = p.pc
    simp [set_sr]
  · show (((set_sr cfg p (trap_sr_val p.sr)).cause &&&
        compl32 CAUSE_EXCCODE ||| t <<< CAUSE_EXCCODE_SHIFT) &&&
        CAUSE_EXCCODE) >>> CAUSE_EXCCODE_SHIFT = t
    simp only [CAUSE_EXCCODE_SHIFT, Nat.shiftLeft_zero, Nat.shiftRight_zero]
    simp only [Nat.and_distrib_right,
      land_kill_here (show compl32 CAUSE_EXCCODE &&& CAUSE_EXCCODE = 0
        by decide),
      Nat.zero_or]
    rw [show CAUSE_EXCCODE = 2 ^ 8 - 1 by decide,
      Nat.and_pow_two_sub_one_of_lt_two_pow
        (Nat.lt_trans ht (by decide))]
  · show (set_sr cfg p (trap_sr_val p.sr)).evec = p.evec
    simp [set_sr]

lemma land_swap (x a b : Nat) : (x &&& a) &&& b = (x &&& b) &&& a := by
  rw [Nat.land_assoc, Nat.land_comm a b, ← Nat.land_assoc]

/-- A fully matching entry of a well-formed table is a slot candidate of
the slot its word indexes, when the table size is a power of two. -/
lemma chainPred_of_match {α : Type} {e : Entry α}
    (hwf : e.opcode &&& e.mask = e.opcode) {k S w : Nat} (hS : S = 2 ^ k)
    (hm : w &&& e.mask = e.opcode) : chainPred S (w % S) e = true := by
  subst hS
  simp only [chainPred, beq_iff_eq]
  rw [← Nat.and_pow_two_sub_one_eq_mod, land_swap, hm, hwf]

/-- Filtering by a predicate that holds on every fully matching entry
does not change the first-match scan. -/
lemma scan_filter {α : Type} (q : Entry α → Bool) (w : Nat) :
    ∀ tbl : List (Entry α),
      (∀ e ∈ tbl, w &&& e.mask = e.opcode → q e = true) →
      scan w (tbl.filter q) = scan w tbl
  | [], _ => rfl
  | e :: rest, h => by
    have hrest : ∀ e2 ∈ rest, w &&& e2.mask = e2.opcode → q e2 = true :=
      fun e2 he2 hm => h e2 (List.mem_cons_of_mem e he2) hm
    by_cases hq : q e = true
    · rw [List.filter_cons_of_pos hq]
      simp only [scan]
      cases hm : w &&& e.mask == e.opcode
      · simp only [Bool.false_eq_true, if_false]
        exact scan_filter q w rest hrest
      · simp only [if_true]
    · rw [List.filter_cons_of_neg hq]
      have hnm : ¬ (w &&& e.mask == e.opcode) = true := by
        intro hm
        exact hq (h e (List.mem_cons_self e rest) (by simpa using hm))
      simp only [scan, if_neg hnm]
      exact scan_filter q w rest hrest

/-- The first-match scan fails exactly when no entry fully matches. -/
lemma scan_eq_none_iff {α : Type} (w : Nat) :
    ∀ tbl : List (Entry α),
      scan w tbl = none ↔ ∀ e ∈ tbl, w &&& e.mask ≠ e.opcode
  | [] => by simp [scan]
  | e :: rest => by
    simp only [scan]
    by_cases hm : (w &&& e.mask == e.opcode) = true
    · simp only [if_pos hm]
      constructor
      · intro h
        cases h
      · intro h
        exact absurd (by simpa using hm) (h e (List.mem_cons_self e rest))
    · simp only [if_neg hm, scan_eq_none_iff w rest]
      constructor
      · intro h e2 he2
        rcases List.mem_cons.mp he2 with rfl | he2
        · simpa using hm
        · exact h e2 he2
      · intro h e2 he2
        exact h e2 (List.mem_cons_of_mem e he2)

/-- When exactly one entry fully matches, the first-match scan selects
it. -/
lemma scan_eq_of_unique {α : Type} (w : Nat) :
    ∀ tbl : List (Entry α), ∀ e2 ∈ tbl, w &&& e2.mask = e2.opcode →
      (∀ e ∈ tbl, e ≠ e2 → w &&& e.mask ≠ e.opcode) →
      scan w tbl = some e2.func
  | [], e2, he2, _, _ => absurd he2 (List.not_mem_nil e2)
  | e :: rest, e2, he2, hm2, huniq => by
    by_cases heq : e = e2
    · subst heq
      simp [scan, hm2]
    · have hnm : ¬ (w &&& e.mask == e.opcode) = true := by
        simpa using huniq e (List.mem_cons_self e rest) heq
      have he2r : e2 ∈ rest := by
        rcases List.mem_cons.mp he2 with rfl | h
        · exact absurd rfl heq
        · exact h
      simp only [scan, if_neg hnm]
      exact scan_eq_of_unique w rest e2 he2r hm2
        (fun e3 he3 hne => huniq e3 (List.mem_cons_of_mem e he3) hne)

/-- C1 (amended): for a well-formed opcode table and a power-of-two
table size, two-level dispatch agrees with the direct first-match linear
scan on every word that fully matches at least one table entry; in
particular a word whose unique full match is a given entry selects that
entry's handler, never an earlier colliding one.  (For a word matching
no entry the two disagree when its slot holds exactly one candidate:
see the counterexample theorem.) -/
theorem dispatch_equiv_on_matching {α : Type} (tbl : List (Entry α))
    (k S w : Nat) (hS : S = 2 ^ k) (hwf : wellFormed tbl)
    (hm : ∃ e ∈ tbl, w &&& e.mask = e.opcode) :
    dispatchResolve tbl S w = linearScan tbl w ∧
    (∀ e2 ∈ tbl, w &&& e2.mask = e2.opcode →
      (∀ e ∈ tbl, e ≠ e2 → w &&& e.mask ≠ e.opcode) →
      dispatchResolve tbl S w = some e2.func) := by
  have hfilter : scan w (buildChain tbl S (w % S)) = scan w tbl :=
    scan_filter (chainPred S (w % S)) w tbl
      (fun e he hme => chainPred_of_match (hwf e he) hS hme)
  have hmain : dispatchResolve tbl S w = linearScan tbl w := by
    rw [dispatchResolve, linearScan]
    cases hchain : buildChain tbl S (w % S) with
    | nil =>
      rw [hchain] at hfilter
      exact hfilter
    | cons e rest =>
      cases rest with
      | nil =>
        rw [hchain] at hfilter
        by_cases hme : (w &&& e.mask == e.opcode) = true
        · rw [← hfilter]
          simp [scan, hme]
        · exfalso
          rcases hm with ⟨e2, he2, hm2⟩
          have : scan w tbl = none := by
            rw [← hfilter]
            simp [scan, hme]
          exact (scan_eq_none_iff w tbl).mp this e2 he2 hm2
      | cons e3 rest3 =>
        rw [hchain] at hfilter
        exact hfilter
  refine ⟨hmain, fun e2 he2 hm2 huniq => ?_⟩
  rw [hmain, linearScan]
  exact scan_eq_of_unique w tbl e2 he2 hm2 huniq

/-- A build configuration with every capability enabled. -/
def cfgAll : BuildConfig := ⟨true, true, true, true⟩

/-- A concrete all-zero processor state over all-zero memory, used to
instantiate theorems at concrete inputs. -/
def baseState : State where
  id := 0
  run := false
  XPR := fun _ => 0
  FPR := fun _ => 0
  pc := 0
  evec := 0
  epc := 0
  badvaddr := 0
  cause := 0
  pcr_k0 := 0
  pcr_k1 := 0
  tohost := 0
  fromhost := 0
  count := 0
  compare := 0
  cycle := 0
  sr := 0
  fsr := 0
  xprlen := 32
  vecbanks := 0
  vecbanks_count := 0
  utidx := 0
  vlmax := 0
  vl := 0
  nxfpr_bank := 0
  nxpr_use := 0
  nfpr_use := 0
  uts := fun _ => none
  load := fun _ _ => 0
  mmu_badvaddr := 0
  mmu_vm_enabled := false
  mmu_supervisor := false

/-- A one-entry opcode table whose entry's mask reaches above the
dispatch-index bits: its slot has exactly one candidate, so the slot is
direct-bound and dispatch skips the full mask test. -/
def exTblC1 : List (Entry Nat) := [⟨7, 0, 0xFFFFFFFF⟩]

/-- C1 (counterexample): word `1024` matches no entry of `exTblC1`, so
the first-match linear scan faults (returns `none`), yet the two-level
table dispatches it to the slot's single candidate's handler without a
mask check — the two outcomes differ. -/
theorem dispatch_counterexample :
    dispatchResolve exTblC1 DISPATCH_TABLE_SIZE 1024 ≠
      linearScan exTblC1 1024 := by
  decide

/-- A two-entry opcode table whose entries collide on the low ten bits
(`0x003` vs `0x403`, both with mask `0xFFF`). -/
def wTblC1 : List (Entry Nat) := [⟨1, 0x003, 0xFFF⟩, ⟨2, 0x403, 0xFFF⟩]

theorem dispatch_equiv_witness :
    dispatchResolve wTblC1 DISPATCH_TABLE_SIZE 0x403 = some 2 :=
  (dispatch_equiv_on_matching wTblC1 10 DISPATCH_TABLE_SIZE 0x403
      (by decide) (by simp only [wellFormed]; decide)
      ⟨⟨2, 0x403, 0xFFF⟩, by decide, by decide⟩).2
    ⟨2, 0x403, 0xFFF⟩ (by decide) (by decide) (by decide)

/-- C6: whatever the retiring instruction's handler wrote, integer
register 0 reads as zero immediately after `execute_insn` retires it. -/
theorem execute_insn_zero_reg (tbl : List (Entry Func)) (p q : State)
    (h : execute_insn tbl p = Except.ok q) : q.XPR 0 = 0 := by
  simp only [execute_insn] at h
  split at h
  · cases h
  · split at h
    · cases h
    · cases h
      simp [Function.update_same]

/-- An opcode table whose single catch-all entry's handler writes 42
into integer register 0. -/
def wTblC6 : List (Entry Func) :=
  [⟨fun p _ _ =>
      Except.ok ({ p with XPR := Function.update p.XPR 0 42 }, p.pc + 4),
    0, 0⟩]

theorem execute_insn_zero_reg_witness :
    ∃ q, execute_insn wTblC6 baseState = Except.ok q ∧ q.XPR 0 = 0 :=
  ⟨_, rfl, execute_insn_zero_reg wTblC6 baseState _ rfl⟩

/-- C7: the `vcfg` recompute sets the maximum vector length to
bank-width × lane-count when fewer than two registers are in use, and to
`(bank-width / (use − 1)) × lane-count` otherwise, clamped to the
lane-array capacity; `setvl` with a request above the maximum stores
exactly the maximum and never exceeds it. -/
theorem vcfg_vlmax_setvl_clamp (p : State) (vlapp : Int)
    (h : (vcfg p).vlmax < vlapp) :
    (vcfg p).vlmax =
      min (if p.nxpr_use + p.nfpr_use < 2
            then ((p.nxfpr_bank * p.vecbanks_count : Nat) : Int)
            else (((p.nxfpr_bank / (p.nxpr_use + p.nfpr_use - 1)) *
                    p.vecbanks_count : Nat) : Int)) MAX_UTS ∧
    (setvl (vcfg p) vlapp).vl = (vcfg p).vlmax ∧
    (setvl (vcfg p) vlapp).vl ≤ (vcfg p).vlmax := by
  refine ⟨rfl, ?_, ?_⟩
  · exact min_eq_left (le_of_lt h)
  · exact min_le_left _ _

/-- The spec's own vector-configuration scenario: one integer and one
floating register in use, bank width 256, lane count 8. -/
def wStateC7 : State :=
  { baseState with
    nxfpr_bank := 256, vecbanks_count := 8, nxpr_use := 1, nfpr_use := 1 }

theorem vcfg_vlmax_setvl_clamp_witness :
    (vcfg wStateC7).vlmax =
      min (if wStateC7.nxpr_use + wStateC7.nfpr_use < 2
            then ((wStateC7.nxfpr_bank * wStateC7.vecbanks_count : Nat) :
              Int)
            else (((wStateC7.nxfpr_bank /
                    (wStateC7.nxpr_use + wStateC7.nfpr_use - 1)) *
                    wStateC7.vecbanks_count : Nat) : Int)) MAX_UTS ∧
    (setvl (vcfg wStateC7) 3000).vl = (vcfg wStateC7).vlmax ∧
    (setvl (vcfg wStateC7) 3000).vl ≤ (vcfg wStateC7).vlmax :=
  vcfg_vlmax_setvl_clamp wStateC7 3000 (by decide)

/-- C10: `setvl` applies no lower bound: any requested length at most
the current maximum — negative lengths included — is stored unchanged as
the configured vector length. -/
theorem setvl_no_lower_bound (p : State) (vlapp : Int)
    (h : vlapp ≤ p.vlmax) : (setvl p vlapp).vl = vlapp :=
  min_eq_right h

theorem setvl_no_lower_bound_witness :
    (setvl { baseState with vlmax := 32 } (-5)).vl = -5 ∧
      (setvl { baseState with vlmax := 32 } (-5)).vl < 0 :=
  ⟨setvl_no_lower_bound { baseState with vlmax := 32 } (-5) (by decide),
    by rw [setvl_no_lower_bound { baseState with vlmax := 32 } (-5)
      (by decide)]; decide⟩

/-- A state with traps enabled in supervisor mode, for instantiating the
trap-delivery theorem. -/
def wStateC2 : State := { baseState with sr := 0x21 }

theorem take_trap_delivery_witness :
    ∃ q, take_trap cfgAll wStateC2 2 = Except.ok q ∧
      ((q.sr &&& SR_PS ≠ 0) ↔ (wStateC2.sr &&& SR_S ≠ 0)) ∧
      q.sr &&& SR_S ≠ 0 ∧
      q.sr &&& SR_ET = 0 ∧
      q.epc = wStateC2.pc ∧
      (q.cause &&& CAUSE_EXCCODE) >>> CAUSE_EXCCODE_SHIFT = 2 ∧
      q.pc = wStateC2.evec :=
  take_trap_delivery cfgAll wStateC2 2 (by decide) (by decide)

/-- C3: the batch-end timer bookkeeping sets the timer
interrupt-pending bit exactly when the retired-instruction counter
crosses or reaches `compare` during the batch — in exact arithmetic,
`old count < compare ≤ old count + i`, which covers the 64-bit
wraparound case — and the bit, once set, survives both further timer
updates (the left disjunct) and trap delivery. -/
theorem step_timer_bit (p : State) (i : Nat)
    (hc : p.count < W64) (hcmp : p.compare < W64) (hi : i < W64) :
    ((timer_update p i).cause.testBit (TIMER_IRQ + CAUSE_IP_SHIFT) = true ↔
      (p.cause.testBit (TIMER_IRQ + CAUSE_IP_SHIFT) = true ∨
        (p.count < p.compare ∧ p.compare ≤ p.count + i))) ∧
    (∀ cfg t q, take_trap cfg p t = Except.ok q →
      q.cause.testBit (TIMER_IRQ + CAUSE_IP_SHIFT) =
        p.cause.testBit (TIMER_IRQ + CAUSE_IP_SHIFT)) := by
  constructor
  · by_cases hcnd : p.count < p.compare ∧
        (p.compare ≤ (p.count + i) % W64 ∨ W64 - 1 - i % W64 < p.count)
    · have hcross : p.count < p.compare ∧ p.compare ≤ p.count + i := by
        rcases hcnd with ⟨h1, h2⟩
        refine ⟨h1, ?_⟩
        simp only [W64] at h2 hc hcmp hi
        omega
      have h23 : (1 <<< (TIMER_IRQ + CAUSE_IP_SHIFT)).testBit
          (TIMER_IRQ + CAUSE_IP_SHIFT) = true := by decide
      simp only [timer_update, if_pos hcnd]
      simp [Nat.testBit_or, h23, hcross]
    · have hnc : ¬ (p.count < p.compare ∧ p.compare ≤ p.count + i) := by
        intro hcr
        apply hcnd
        refine ⟨hcr.1, ?_⟩
        simp only [W64] at hc hcmp hi ⊢
        omega
      simp only [timer_update, if_neg hcnd]
      simp [hnc]
  · intro cfg t q hq
    by_cases h1 : NUM_TRAPS ≤ t
    · simp only [take_trap, if_pos h1] at hq
      cases hq
    · by_cases h2 : p.sr &&& SR_ET = 0
      · simp only [take_trap, if_neg h1, if_pos h2] at hq
        cases hq
      · simp only [take_trap, if_neg h1, if_neg h2] at hq
        cases hq
        have ht : t < 2 ^ (TIMER_IRQ + CAUSE_IP_SHIFT) := by
          simp only [NUM_TRAPS] at h1
          simp only [TIMER_IRQ, CAUSE_IP_SHIFT]
          omega
        have htb : t.testBit (TIMER_IRQ + CAUSE_IP_SHIFT) = false :=
          Nat.testBit_eq_false_of_lt ht
        have hcp : (compl32 CAUSE_EXCCODE).testBit
            (TIMER_IRQ + CAUSE_IP_SHIFT) = true := by decide
        simp only [CAUSE_EXCCODE_SHIFT, Nat.shiftLeft_zero]
        simp [set_sr, Nat.testBit_or, Nat.testBit_and, htb, hcp]

/-- A state about to cross its timer compare threshold. -/
def wStateC3 : State := { baseState with count := 5, compare := 8 }

theorem step_timer_bit_witness :
    (timer_update wStateC3 10).cause.testBit
        (TIMER_IRQ + CAUSE_IP_SHIFT) = true ↔
      (wStateC3.cause.testBit (TIMER_IRQ + CAUSE_IP_SHIFT) = true ∨
        (wStateC3.count < wStateC3.compare ∧
          wStateC3.compare ≤ wStateC3.count + 10)) :=
  (step_timer_bit wStateC3 10 (by decide) (by decide) (by decide)).1

/-- C8 (amended): an out-of-range trap code aborts with the
bad-trap-number diagnostic (which identifies the code but not the core),
and a trap delivered while traps are globally disabled aborts with the
error-mode diagnostic (which identifies core, code and pc); in both
cases `take_trap` returns no successor state, so the trap is neither
absorbed nor redirected into the guest trap vector. -/
theorem take_trap_fatal (cfg : BuildConfig) (p : State) (t : Nat) :
    (NUM_TRAPS ≤ t →
      take_trap cfg p t = Except.error (Fatal.badTrapNumber t)) ∧
    (t < NUM_TRAPS → p.sr &&& SR_ET = 0 →
      take_trap cfg p t = Except.error (Fatal.errorMode p.id t p.pc)) := by
  constructor
  · intro h
    simp only [take_trap, if_pos h]
  · intro h1 h2
    simp only [take_trap, if_neg (not_le.mpr h1), if_pos h2]

theorem take_trap_fatal_witness :
    take_trap cfgAll baseState NUM_TRAPS =
        Except.error (Fatal.badTrapNumber NUM_TRAPS) ∧
      take_trap cfgAll baseState 2 =
        Except.error (Fatal.errorMode baseState.id 2 baseState.pc) :=
  ⟨(take_trap_fatal cfgAll baseState NUM_TRAPS).1 (le_refl _),
    (take_trap_fatal cfgAll baseState 2).2 (by decide) rfl⟩

/-- C8 (counterexample): the abort on an out-of-range trap code carries
the `badTrapNumber` diagnostic, which does not name the violating core,
against the claim that both fatal diagnostics identify core and code. -/
theorem take_trap_fatal_counterexample :
    ¬ ∃ d, take_trap cfgAll baseState NUM_TRAPS = Except.error d ∧
        diagIdentifiesCore d = true := by
  rintro ⟨d, hd, hc⟩
  rw [show take_trap cfgAll baseState NUM_TRAPS =
      Except.error (Fatal.badTrapNumber NUM_TRAPS) from rfl] at hd
  cases hd
  simp [diagIdentifiesCore] at hc

/-- C9 (amended): reset clears the run flag, zeroes the register files,
the control registers and the counters, sets the status register to
supervisor mode (plus the 64-bit width bit when that capability is
enabled) rather than zero, sets the vector configuration to its fixed
power-on defaults rather than zero, and nulls the lane array. -/
theorem reset_characterization (cfg : BuildConfig) (p : State) :
    (reset cfg p).run = false ∧
    (∀ r, (reset cfg p).XPR r = 0) ∧
    (∀ r, (reset cfg p).FPR r = 0) ∧
    (reset cfg p).pc = 0 ∧
    (reset cfg p).evec = 0 ∧
    (reset cfg p).epc = 0 ∧
    (reset cfg p).badvaddr = 0 ∧
    (reset cfg p).cause = 0 ∧
    (reset cfg p).pcr_k0 = 0 ∧
    (reset cfg p).pcr_k1 = 0 ∧
    (reset cfg p).tohost = 0 ∧
    (reset cfg p).fromhost = 0 ∧
    (reset cfg p).count = 0 ∧
    (reset cfg p).compare = 0 ∧
    (reset cfg p).cycle = 0 ∧
    (reset cfg p).fsr = 0 ∧
    (reset cfg p).sr = (if cfg.enable64 then SR_S ||| SR_SX else SR_S) ∧
    (reset cfg p).vecbanks = 0xff ∧
    (reset cfg p).vecbanks_count = 8 ∧
    (reset cfg p).utidx = -1 ∧
    (reset cfg p).vlmax = 32 ∧
    (reset cfg p).vl = 0 ∧
    (reset cfg p).nxfpr_bank = 256 ∧
    (reset cfg p).nxpr_use = 32 ∧
    (reset cfg p).nfpr_use = 32 ∧
    (∀ j, (reset cfg p).uts j = none) := by
  rcases cfg with ⟨e64, ef, ec, ev⟩
  cases e64 <;> cases ef <;> cases ec <;> cases ev <;>
    exact ⟨rfl, fun r => rfl, fun r => rfl, rfl, rfl, rfl, rfl, rfl, rfl,
      rfl, rfl, rfl, rfl, rfl, rfl, rfl, rfl, rfl, rfl, rfl, rfl, rfl,
      rfl, rfl, rfl, fun j => rfl⟩

/-- C9 (counterexample): after reset the status register holds the
supervisor-mode value, not zero, and the vector configuration holds its
power-on defaults, not zero. -/
theorem reset_counterexample :
    ¬ ((reset cfgAll baseState).sr = 0 ∧
        (reset cfgAll baseState).vlmax = 0 ∧
        (reset cfgAll baseState).nxpr_use = 0 ∧
        (reset cfgAll baseState).vecbanks = 0) := by
  intro h
  exact absurd h.1 (by decide)

/-- The spec's step scenario: a reset processor with trap vector 0x100,
traps enabled at supervisor level, compare = 0 (reset leaves it 0), made
runnable, over all-zero memory and an opcode table matching nothing. -/
def scenarioStart : State :=
  let p0 := reset cfgAll baseState
  let p1 := { p0 with evec := 0x100 }
  let p2 := set_sr cfgAll p1 (p1.sr ||| SR_ET)
  { p2 with run := true }

/-- A batch of five instructions of the step scenario. -/
def scenarioRun : Except Fatal State :=
  step cfgAll ([] : List (Entry Func)) 5 scenarioStart

/-- C4 (amended): in the scenario, the first fetch faults with an
illegal instruction, and delivering that trap sets epc to the initial
pc 0 and the pc to the 0x100 trap vector with the illegal-instruction
cause code and the timer-pending bit still clear; but the batch then
faults again at 0x100 with traps now disabled, so `step` aborts in
error mode before any timer bookkeeping, and the timer bit — which
`compare = 0` can never trigger, since the code requires
`old count < compare` — is never set. -/
theorem step_scenario_amended :
    execute_insn ([] : List (Entry Func)) scenarioStart =
      Except.error (Signal.trap trap_illegal_instruction) ∧
    (∃ q, take_trap cfgAll scenarioStart trap_illegal_instruction =
        Except.ok q ∧
      q.epc = 0 ∧ q.pc = 0x100 ∧
      (q.cause &&& CAUSE_EXCCODE) >>> CAUSE_EXCCODE_SHIFT =
        trap_illegal_instruction ∧
      q.cause.testBit (TIMER_IRQ + CAUSE_IP_SHIFT) = false) ∧
    scenarioRun = Except.error
      (Fatal.errorMode 0 trap_illegal_instruction 0x100) := by
  exact ⟨rfl, ⟨_, rfl, rfl, rfl, by decide, by decide⟩, rfl⟩

/-- C4 (counterexample): the scenario batch does not end in a state
with the timer-pending bit set — it aborts fatally at the second
faulting fetch, and with `compare = 0` the timer condition
`old count < compare` is unsatisfiable anyway. -/
theorem step_scenario_counterexample :
    ¬ ∃ q, scenarioRun = Except.ok q ∧ q.epc = 0 ∧ q.pc = 0x100 ∧
        q.cause.testBit (TIMER_IRQ + CAUSE_IP_SHIFT) = true := by
  rintro ⟨q, hq, -⟩
  rw [show scenarioRun = Except.error
      (Fatal.errorMode 0 trap_illegal_instruction 0x100) from rfl] at hq
  cases hq

end Spike
